import Mathlib

/-!
Shallow embedding of `src/main.rs` of the paper-bot repository: a pipeline
that fetches arXiv papers, samples up to three of them after a shuffle,
translates each via a chat-completion API, and posts the result to Slack.

Network effects are embedded as explicit inputs: each HTTP call is given its
response (or `none` when the transport itself fails), and the JSON parse of a
body is given as an `Option` of the parsed structure. A `.unwrap()` or an
out-of-bounds index in the Rust source, which aborts the process, is embedded
as the `Outcome.crash` constructor.
-/

namespace PaperBot

/-- `Message` from `main.rs`: a role-tagged chat message. -/
structure Message where
  role : String
  content : String
deriving DecidableEq, Repr

/-- `Usage` from `main.rs`: token-usage counters of a chat response. -/
structure Usage where
  prompt_tokens : Int
  completion_tokens : Int
  total_tokens : Int
deriving DecidableEq, Repr

/-- `Choice` from `main.rs`: one generated completion inside a response. -/
structure Choice where
  message : Message
  finish_reason : String
  index : Int
deriving DecidableEq, Repr

/-- `Root` from `main.rs`: the parsed JSON body of a chat-completion
response. -/
structure Root where
  id : String
  object : String
  created : Int
  model : String
  usage : Usage
  choices : List Choice
deriving DecidableEq, Repr

/-- `SlackMessage` from `main.rs`: the payload posted to Slack. -/
structure SlackMessage where
  channel : String
  text : String
deriving DecidableEq, Repr

/-- The fields of an `arxiv::Arxiv` record that `main.rs` reads:
title, summary, publication date and pdf link. -/
structure Arxiv where
  title : String
  summary : String
  published : String
  pdf_url : String
deriving DecidableEq, Repr

/-- Result of running a fallible Rust function that may also abort the
process: `ok` and `err` are the two sides of `Result<String, String>`,
`crash` is a panic (`unwrap` on `Err`/`None`, or an out-of-bounds index). -/
inductive Outcome (α : Type) where
  | ok : α → Outcome α
  | err : String → Outcome α
  | crash : Outcome α
deriving DecidableEq, Repr

/-- The HTTP response seen by `translate_paper`: a status code and, for the
200 branch, the result of `response.json::<Root>()` (`none` = the body did
not parse as a `Root`). -/
structure OpenAIResponse where
  status : Nat
  parsed : Option Root
deriving DecidableEq, Repr

/-- The HTTP response seen by `post_to_slack`: a status code and, for the
200 branch, the result of `response.text()` (`none` = reading the body
failed). -/
structure SlackResponse where
  status : Nat
  bodyText : Option String
deriving DecidableEq, Repr

/-- Error string of the 401 branches of `post_to_slack` and
`translate_paper`. -/
def authErrorMsg : String := "🛑 Status: UNAUTHORIZED - Need to grab a new token"

/-- Error string of the 429 branches of `post_to_slack` and
`translate_paper`. -/
def rateLimitErrorMsg : String := "🛑 Status: 429 - Too many requests"

/-- Error string of the catch-all branches of `post_to_slack` and
`translate_paper`. In the Rust source this is a plain string literal, not a
`format!` call, so the `\x7b:#?\x7d` placeholder is left uninterpolated. -/
def unexpectedErrorMsg : String := "🛑 Status: \x7b:#?\x7d - Something unexpected happened"

/-- Error string of the failed-parse branch of `translate_paper`. -/
def malformedErrorMsg : String := "🛑 Hm, the response didn\x27t match the shape we expected."

/-- `post_to_slack` from `main.rs`, as a function of the transport result.
`send = none` embeds a failed `send()` whose `.unwrap()` panics; on status
200 the body is read with `.unwrap()`, panicking when reading fails;
401, 429 and every other status map to fixed error strings. -/
def post_to_slack (send : Option SlackResponse) : Outcome String :=
  match send with
  | none => Outcome.crash
  | some resp =>
    if resp.status = 200 then
      match resp.bodyText with
      | none => Outcome.crash
      | some body => Outcome.ok body
    else if resp.status = 401 then Outcome.err authErrorMsg
    else if resp.status = 429 then Outcome.err rateLimitErrorMsg
    else Outcome.err unexpectedErrorMsg

/-- The success text built by `translate_paper` on a 200 response whose body
parsed with at least one choice: `format!("発行日: \x7b\x7d\n\x7b\x7d\n\x7b\x7d\n\x7b\x7d\n", ...)`. -/
def translatedText (a : Arxiv) (c : Choice) : String :=
  "発行日: " ++ a.published ++ "\n" ++ a.pdf_url ++ "\n" ++ a.title ++ "\n"
    ++ c.message.content ++ "\n"

/-- `translate_paper` from `main.rs`, as a function of the record and the
transport result. `send = none` embeds a failed `send()` whose `.unwrap()`
panics. On status 200, a body that fails to parse into `Root` yields the
malformed-shape error; a parsed body is indexed at `choices[0]`, which
panics when `choices` is empty; otherwise the formatted text is returned.
401, 429 and every other status map to fixed error strings. -/
def translate_paper (a : Arxiv) (send : Option OpenAIResponse) : Outcome String :=
  match send with
  | none => Outcome.crash
  | some resp =>
    if resp.status = 200 then
      match resp.parsed with
      | some parsed =>
        match parsed.choices with
        | [] => Outcome.crash
        | c :: _ => Outcome.ok (translatedText a c)
      | none => Outcome.err malformedErrorMsg
    else if resp.status = 401 then Outcome.err authErrorMsg
    else if resp.status = 429 then Outcome.err rateLimitErrorMsg
    else Outcome.err unexpectedErrorMsg

/-- What one run prints and whether it aborted by a panic. -/
structure RunOutcome where
  printed : List String
  crashed : Bool
deriving DecidableEq, Repr

/-- The per-item loop of `main`: for each sampled record, translate, build
the Slack payload with `message.unwrap()` (panicking on any translation
error), post it, and print either the success marker or the error line.
A panic stops the loop with `crashed = true`. -/
def processItems (channel : String) (translate : Arxiv → Outcome String)
    (post : SlackMessage → Outcome String) : List Arxiv → RunOutcome
  | [] => ⟨[], false⟩
  | a :: rest =>
    match translate a with
    | Outcome.crash => ⟨[], true⟩
    | Outcome.err _ => ⟨[], true⟩
    | Outcome.ok t =>
      match post ⟨channel, t⟩ with
      | Outcome.crash => ⟨[], true⟩
      | Outcome.ok _ =>
        let r := processItems channel translate post rest
        ⟨"🎉 Successfully posted to Slack" :: r.printed, r.crashed⟩
      | Outcome.err e =>
        let r := processItems channel translate post rest
        ⟨e :: r.printed, r.crashed⟩

/-- The sampled items of `main`: after the shuffle, the loop
`for i in 0..min(3, arxivs.len())` reads exactly the first
`min 3 length` elements of the shuffled list. -/
def sampled (shuffled : List Arxiv) : List Arxiv :=
  shuffled.take (min 3 shuffled.length)

/-- `main` from `main.rs`, as a function of the fetch result, the shuffle
(an oracle standing for `shuffle(&mut thread_rng())`), and the network
behaviour of the two downstream calls. A failed fetch propagates through
`?` as the error of the run before anything else happens. -/
def mainRun (fetch : Except String (List Arxiv)) (shuffle : List Arxiv → List Arxiv)
    (channel : String)
    (translateNet : Arxiv → Option OpenAIResponse)
    (postNet : SlackMessage → Option SlackResponse) : Except String RunOutcome :=
  match fetch with
  | Except.error e => Except.error e
  | Except.ok arxivs =>
    Except.ok (processItems channel
      (fun a => translate_paper a (translateNet a))
      (fun m => post_to_slack (postNet m))
      (sampled (shuffle arxivs)))

/-- A concrete paper record used by witnesses. -/
def paperA : Arxiv :=
  ⟨"Attention Is All You Need", "We propose the Transformer.",
    "2017-06-12", "https://arxiv.org/pdf/1706.03762"⟩

/-- A second concrete paper record used by witnesses. -/
def paperB : Arxiv :=
  ⟨"Deep Residual Learning", "We present residual networks.",
    "2015-12-10", "https://arxiv.org/pdf/1512.03385"⟩

/-- A parsed chat response whose choices list is empty. -/
def emptyChoicesRoot : Root :=
  ⟨"chatcmpl-1", "chat.completion", 0, "gpt-3.5-turbo", ⟨0, 0, 0⟩, []⟩

/-- A parsed chat response with one choice. -/
def oneChoiceRoot : Root :=
  ⟨"chatcmpl-2", "chat.completion", 0, "gpt-3.5-turbo", ⟨7, 5, 12⟩,
    [⟨⟨"assistant", "タイトル: 注意機構"⟩, "stop", 0⟩]⟩

/-- Claim C1 (code evaluated at the failing input): on HTTP 200 whose body
parses into a `Root` with an empty choices list, `translate_paper` does not
return the malformed-response error — the unchecked index `choices[0]`
panics, aborting the process. -/
theorem translate_paper_empty_choices_crashes :
    translate_paper paperA (some ⟨200, some emptyChoicesRoot⟩) = Outcome.crash := rfl

/-- Claim C2: when `translate_paper` returns any classified error for a
sampled item, the `message.unwrap()` in `main` panics while building the
publish payload: the loop stops at that item with nothing further printed,
and any run whose sampled list contains such an item ends crashed instead
of skipping it. -/
theorem main_loop_aborts_on_translate_error
    (channel : String) (translate : Arxiv → Outcome String)
    (post : SlackMessage → Outcome String)
    (a : Arxiv) (rest items : List Arxiv) (e : String)
    (ht : translate a = Outcome.err e) (hmem : a ∈ items) :
    processItems channel translate post (a :: rest) = ⟨[], true⟩ ∧
    (processItems channel translate post items).crashed = true := by
  constructor
  · simp [processItems, ht]
  · induction items with
    | nil => simp at hmem
    | cons b bs ih =>
      rcases List.mem_cons.mp hmem with hb | hb
      · subst hb
        simp [processItems, ht]
      · have hc := ih hb
        cases hb' : translate b with
        | crash => simp [processItems, hb']
        | err f => simp [processItems, hb']
        | ok t =>
          cases hp : post ⟨channel, t⟩ with
          | crash => simp [processItems, hb', hp]
          | ok r => simp [processItems, hb', hp, hc]
          | err f => simp [processItems, hb', hp, hc]

/-- Witness for C2 at a concrete sampled list and network behaviour. -/
theorem main_loop_aborts_on_translate_error_witness :
    processItems "general" (fun _ => Outcome.err rateLimitErrorMsg)
      (fun _ => Outcome.ok "ok") (paperA :: [paperB]) = ⟨[], true⟩ ∧
    (processItems "general" (fun _ => Outcome.err rateLimitErrorMsg)
      (fun _ => Outcome.ok "ok") [paperA]).crashed = true :=
  main_loop_aborts_on_translate_error "general" (fun _ => Outcome.err rateLimitErrorMsg)
    (fun _ => Outcome.ok "ok") paperA [paperB] [paperA] rateLimitErrorMsg rfl
    (List.mem_singleton.mpr rfl)

/-- Claim C3: for any shuffle outcome (a permutation of the fetched list of
distinct records), the loop processes exactly `min 3 N` items, all distinct
elements of the fetched list; for `N = 1` it processes exactly that paper. -/
theorem sampler_takes_min_three_distinct
    (fetched shuffled : List Arxiv)
    (hperm : shuffled.Perm fetched) (hnd : fetched.Nodup) :
    (sampled shuffled).length = min 3 fetched.length ∧
    (sampled shuffled).Nodup ∧
    (∀ a ∈ sampled shuffled, a ∈ fetched) ∧
    (fetched.length = 1 → sampled shuffled = fetched) := by
  have hlen : shuffled.length = fetched.length := hperm.length_eq
  refine ⟨?_, ?_, ?_, ?_⟩
  · rw [sampled, List.length_take, Nat.min_assoc, Nat.min_self, hlen]
  · exact List.Nodup.sublist (List.take_sublist _ _) (hperm.symm.nodup hnd)
  · intro a ha
    exact hperm.mem_iff.mp (List.mem_of_mem_take ha)
  · intro h1
    obtain ⟨x, hx⟩ := List.length_eq_one.mp h1
    subst hx
    have hs : shuffled = [x] := List.perm_singleton.mp hperm
    simp [sampled, hs]

/-- Witness for C3: a two-element fetched list and a transposed shuffle. -/
theorem sampler_takes_min_three_distinct_witness :
    (sampled [paperB, paperA]).length = min 3 ([paperA, paperB].length) ∧
    (sampled [paperB, paperA]).Nodup ∧
    (∀ a ∈ sampled [paperB, paperA], a ∈ [paperA, paperB]) ∧
    ([paperA, paperB].length = 1 → sampled [paperB, paperA] = [paperA, paperB]) :=
  sampler_takes_min_three_distinct [paperA, paperB] [paperB, paperA]
    (by decide) (by decide)

/-- Claim C4: both `translate_paper` and `post_to_slack` classify HTTP 401
as the authorization error, HTTP 429 as the rate-limit error, and every
other non-200 status as the unexpected-status error; each call consumes a
single response, so no retry is performed. -/
theorem status_classification
    (a : Arxiv) (p : Option Root) (b : Option String) (s : Nat)
    (h200 : s ≠ 200) (h401 : s ≠ 401) (h429 : s ≠ 429) :
    translate_paper a (some ⟨401, p⟩) = Outcome.err authErrorMsg ∧
    post_to_slack (some ⟨401, b⟩) = Outcome.err authErrorMsg ∧
    translate_paper a (some ⟨429, p⟩) = Outcome.err rateLimitErrorMsg ∧
    post_to_slack (some ⟨429, b⟩) = Outcome.err rateLimitErrorMsg ∧
    translate_paper a (some ⟨s, p⟩) = Outcome.err unexpectedErrorMsg ∧
    post_to_slack (some ⟨s, b⟩) = Outcome.err unexpectedErrorMsg := by
  refine ⟨?_, ?_, ?_, ?_, ?_, ?_⟩ <;>
    simp [translate_paper, post_to_slack, h200, h401, h429]

/-- Witness for C4 at status 500 with no parses available. -/
theorem status_classification_witness :
    translate_paper paperA (some ⟨401, none⟩) = Outcome.err authErrorMsg ∧
    post_to_slack (some ⟨401, none⟩) = Outcome.err authErrorMsg ∧
    translate_paper paperA (some ⟨429, none⟩) = Outcome.err rateLimitErrorMsg ∧
    post_to_slack (some ⟨429, none⟩) = Outcome.err rateLimitErrorMsg ∧
    translate_paper paperA (some ⟨500, none⟩) = Outcome.err unexpectedErrorMsg ∧
    post_to_slack (some ⟨500, none⟩) = Outcome.err unexpectedErrorMsg :=
  status_classification paperA none none 500 (by decide) (by decide) (by decide)

/-- Claim C5: on HTTP 200 with a parsed body whose choices list is
non-empty, `translate_paper` returns the publication date, the pdf link,
the title and the content of the first choice, in that order, each
terminated by a newline. -/
theorem translate_success_format
    (a : Arxiv) (r : Root) (c : Choice) (cs : List Choice)
    (hc : r.choices = c :: cs) :
    translate_paper a (some ⟨200, some r⟩) =
      Outcome.ok ("発行日: " ++ a.published ++ "\n" ++ a.pdf_url ++ "\n"
        ++ a.title ++ "\n" ++ c.message.content ++ "\n") := by
  simp [translate_paper, hc, translatedText]

/-- Witness for C5 at a concrete record and one-choice response. -/
theorem translate_success_format_witness :
    oneChoiceRoot.choices = (⟨⟨"assistant", "タイトル: 注意機構"⟩, "stop", 0⟩ : Choice) :: [] ∧
    translate_paper paperA (some ⟨200, some oneChoiceRoot⟩) =
      Outcome.ok ("発行日: " ++ paperA.published ++ "\n" ++ paperA.pdf_url ++ "\n"
        ++ paperA.title ++ "\n"
        ++ (⟨⟨"assistant", "タイトル: 注意機構"⟩, "stop", 0⟩ : Choice).message.content ++ "\n") :=
  ⟨rfl, translate_success_format paperA oneChoiceRoot _ [] rfl⟩

/-- Claim C6: a publish failure is printed and the loop continues with the
remaining items; a publish success prints the success marker; in both cases
a successful translation never aborts the run (the crash flag is whatever
the remaining items produce). -/
theorem publish_error_continues
    (channel : String) (translate : Arxiv → Outcome String)
    (post : SlackMessage → Outcome String)
    (a b : Arxiv) (rest : List Arxiv) (t u e s : String)
    (hta : translate a = Outcome.ok t) (hpa : post ⟨channel, t⟩ = Outcome.err e)
    (htb : translate b = Outcome.ok u) (hpb : post ⟨channel, u⟩ = Outcome.ok s) :
    processItems channel translate post (a :: rest) =
      ⟨e :: (processItems channel translate post rest).printed,
        (processItems channel translate post rest).crashed⟩ ∧
    processItems channel translate post (b :: rest) =
      ⟨"🎉 Successfully posted to Slack" :: (processItems channel translate post rest).printed,
        (processItems channel translate post rest).crashed⟩ := by
  constructor <;> simp [processItems, hta, hpa, htb, hpb]

/-- Witness for C6 with one item that publishes with an error and one that
publishes successfully. -/
theorem publish_error_continues_witness :
    processItems "general" (fun x => Outcome.ok x.title)
      (fun m => if m.text = paperA.title then Outcome.err authErrorMsg else Outcome.ok "posted")
      (paperA :: []) =
      ⟨authErrorMsg :: (processItems "general" (fun x => Outcome.ok x.title)
        (fun m => if m.text = paperA.title then Outcome.err authErrorMsg else Outcome.ok "posted")
        []).printed,
       (processItems "general" (fun x => Outcome.ok x.title)
        (fun m => if m.text = paperA.title then Outcome.err authErrorMsg else Outcome.ok "posted")
        []).crashed⟩ ∧
    processItems "general" (fun x => Outcome.ok x.title)
      (fun m => if m.text = paperA.title then Outcome.err authErrorMsg else Outcome.ok "posted")
      (paperB :: []) =
      ⟨"🎉 Successfully posted to Slack" :: (processItems "general" (fun x => Outcome.ok x.title)
        (fun m => if m.text = paperA.title then Outcome.err authErrorMsg else Outcome.ok "posted")
        []).printed,
       (processItems "general" (fun x => Outcome.ok x.title)
        (fun m => if m.text = paperA.title then Outcome.err authErrorMsg else Outcome.ok "posted")
        []).crashed⟩ :=
  publish_error_continues "general" (fun x => Outcome.ok x.title)
    (fun m => if m.text = paperA.title then Outcome.err authErrorMsg else Outcome.ok "posted")
    paperA paperB [] paperA.title paperB.title authErrorMsg "posted"
    rfl (by decide) rfl (by decide)

/-- Claim C7: a failed paper-index fetch propagates through the `?`
operator as the error of the whole run: no sampling, translation or
publishing happens and the single fetch is never retried. -/
theorem fetch_failure_aborts (e : String) (shuffle : List Arxiv → List Arxiv)
    (channel : String) (tn : Arxiv → Option OpenAIResponse)
    (pn : SlackMessage → Option SlackResponse) :
    mainRun (Except.error e) shuffle channel tn pn = Except.error e := rfl

/-- Claim C9: the catch-all branches of both functions return one fixed
literal string with the format placeholder left uninterpolated, so the
actual status code never appears in the diagnostic. -/
theorem unexpected_status_message_constant
    (a : Arxiv) (p : Option Root) (b : Option String) (s : Nat)
    (h200 : s ≠ 200) (h401 : s ≠ 401) (h429 : s ≠ 429) :
    translate_paper a (some ⟨s, p⟩) =
      Outcome.err "🛑 Status: \x7b:#?\x7d - Something unexpected happened" ∧
    post_to_slack (some ⟨s, b⟩) =
      Outcome.err "🛑 Status: \x7b:#?\x7d - Something unexpected happened" := by
  constructor <;>
    simp [translate_paper, post_to_slack, unexpectedErrorMsg, h200, h401, h429]

/-- Witness for C9 at status 503. -/
theorem unexpected_status_message_constant_witness :
    translate_paper paperA (some ⟨503, none⟩) =
      Outcome.err "🛑 Status: \x7b:#?\x7d - Something unexpected happened" ∧
    post_to_slack (some ⟨503, none⟩) =
      Outcome.err "🛑 Status: \x7b:#?\x7d - Something unexpected happened" :=
  unexpected_status_message_constant paperA none none 503
    (by decide) (by decide) (by decide)

/-- Claim C10: a transport-level failure — the request fails to send in
either function, or reading the 200 body fails in `post_to_slack` — panics
via `unwrap`, aborting the process, and is never returned as a classified
error value. -/
theorem transport_failure_panics (a : Arxiv) :
    translate_paper a none = Outcome.crash ∧
    post_to_slack none = Outcome.crash ∧
    post_to_slack (some ⟨200, none⟩) = Outcome.crash :=
  ⟨rfl, rfl, rfl⟩

end PaperBot
